import Mathlib

/-!
# Verification of the EV dashboard's filtering/aggregation core

Shallow embedding of the in-memory filtering/aggregation engine of the
dashboard component (`src/unnamed/part_000`, the `Dashboard` function).
The component receives records parsed by Papa Parse with
`header: true, dynamicTyping: true, skipEmptyLines: true`, so a cell is
either a finite number (numeric-looking text is converted), `null`
(empty cell), `undefined` (field missing from a short row), or a
non-numeric string (left unconverted).  We embed exactly the four record
fields the engine reads: `Model Year`, `Make`, `Electric Vehicle Type`
and `Electric Range`; the remaining thirteen fields never influence any
of the computations modelled here.

JavaScript semantics captured by the embedding:
* truthiness (`x ? a : b`, `x || y`): `0`, `NaN`, `""`, `null`,
  `undefined` are falsy;
* strict equality `===` never coerces across types;
* `isNaN(x)` coerces with `ToNumber`: `isNaN(null) = false` (since
  `Number(null) = 0`), `isNaN(undefined) = true`, and a string left
  unconverted by `dynamicTyping` is non-(decimal-)numeric, so
  `isNaN` of it is `true`;
* `Array.prototype.sort` with a consistent comparator is the stable
  sort by that comparator (ES2019);
* `Array.prototype.slice` clamps and wraps negative indices;
* division by zero of a zero numerator gives `NaN`.
-/

/-- A JavaScript value sitting in the `Model Year` column after
`dynamicTyping`: a finite number, `null` (empty cell), `undefined`
(missing field), or a non-numeric string left unconverted. -/
inductive YearVal where
  | num (n : Int)
  | nullv
  | undef
  | str (s : String)
  deriving DecidableEq

/-- A JavaScript value sitting in the `Electric Range` column: a finite
number (possibly `0`), `null`, `undefined`, or `NaN`. -/
inductive RangeVal where
  | num (n : Int)
  | nullv
  | undef
  | nan
  deriving DecidableEq

/-- The fields of a parsed CSV row that the dashboard's computations
read.  `make` and `vehicleType` are `none` when the cell was empty
(`null`); a present cell is a string (categorical columns are never
numeric-looking, so `dynamicTyping` leaves them as strings). -/
structure VehicleRecord where
  modelYear : YearVal
  make : Option String
  vehicleType : Option String
  electricRange : RangeVal
  deriving DecidableEq

/-- A JavaScript number produced by `setSelectedYear(Number(value))`:
a finite integer or `NaN` (e.g. `Number("all-years")`). -/
inductive NumVal where
  | int (n : Int)
  | nan
  deriving DecidableEq

/-- The component state feeding the filter: `selectedYear : number | null`,
`selectedMake : string | null`. -/
structure FilterSelection where
  selectedYear : Option NumVal
  selectedMake : Option String
  deriving DecidableEq

/-- Truthiness of the `selectedYear` state (`null`, `0` and `NaN` are
falsy). -/
def selYearTruthy : Option NumVal → Bool
  | none => false
  | some (NumVal.int n) => n != 0
  | some NumVal.nan => false

/-- Truthiness of the `selectedMake` state (`null` and `""` are falsy). -/
def selMakeTruthy : Option String → Bool
  | none => false
  | some s => s != ""

/-- JavaScript strict equality `item["Model Year"] === selectedYear`:
no coercion, `NaN` equals nothing, `null === null` is true but
`undefined === null` and string-vs-number comparisons are false. -/
def yearStrictEq : YearVal → Option NumVal → Bool
  | YearVal.num m, some (NumVal.int n) => m == n
  | YearVal.nullv, none => true
  | _, _ => false

/-- JavaScript strict equality `item.Make === selectedMake` (both are
string-or-null). -/
def makeStrictEq : Option String → Option String → Bool
  | some s, some t => s == t
  | none, none => true
  | _, _ => false

/-- Lines 97–102: `data.filter((item) => (selectedYear ? item["Model Year"]
=== selectedYear : true) && (selectedMake ? item.Make === selectedMake :
true))`. -/
def filteredData (data : List VehicleRecord) (sel : FilterSelection) :
    List VehicleRecord :=
  data.filter fun item =>
    (if selYearTruthy sel.selectedYear then
        yearStrictEq item.modelYear sel.selectedYear
      else true)
    && (if selMakeTruthy sel.selectedMake then
        makeStrictEq item.make sel.selectedMake
      else true)

/-- The filter predicate as the amended spec words it: a `selectedYear`
set to a nonzero integer requires the record's model year to equal it;
a `selectedMake` set to a nonempty string requires the record's make to
equal it; an unset constraint — and likewise a constraint holding a
falsy value (`0`, `NaN`, `""`) — imposes no filtering. -/
def specMatch (sel : FilterSelection) (item : VehicleRecord) : Bool :=
  (match sel.selectedYear with
    | some (NumVal.int n) =>
        if n = 0 then true else item.modelYear == YearVal.num n
    | some NumVal.nan => true
    | none => true)
  && (match sel.selectedMake with
    | some m => if m = "" then true else item.make == some m
    | none => true)

section FilterTheorems

/-- Strict equality against a present make value agrees with Boolean
equality of the options. -/
theorem makeStrictEq_some (a : Option String) (s : String) :
    makeStrictEq a (some s) = (a == some s) := by
  cases a with
  | none => simp [makeStrictEq]
  | some t => by_cases h : t = s <;> simp [makeStrictEq, h]

/-- Boolean equality of two numeric model-year values agrees with
Boolean equality of the integers. -/
theorem yearVal_num_beq (a b : Int) :
    (YearVal.num a == YearVal.num b) = (a == b) := by
  by_cases h : a = b <;> simp [h]

/-- A concrete record with model year 5; used to falsify the literal
reading of the filter claim at `selectedYear = 0`. -/
def recYear5 : VehicleRecord :=
  { modelYear := YearVal.num 5
    make := some "TESLA"
    vehicleType := some "Battery Electric Vehicle (BEV)"
    electricRange := RangeVal.num 200 }

/-- C1 (counterexample): with `selectedYear` set to the integer `0`, the
record with model year `5` still appears in the filtered view, so it is
false that a record appears only when every set constraint matches. -/
theorem filteredData_setYear_zero_counterexample :
    filteredData [recYear5]
        { selectedYear := some (NumVal.int 0), selectedMake := none }
      = [recYear5]
    ∧ recYear5.modelYear ≠ YearVal.num 0 := by
  constructor
  · rfl
  · decide

/-- C1 (amended): the filtered view is exactly the store filtered by the
amended membership predicate — a truthy (nonzero, non-`NaN`) year
constraint requires integer equality on the model year, a truthy
(nonempty) make constraint requires case-sensitive string equality on
the make, an unset or falsy constraint imposes no filtering, and a
record with an absent or invalid model year never matches a truthy year
constraint — and the view is a sublist of the store, so store order is
preserved. -/
theorem filteredData_refines_amended_spec
    (data : List VehicleRecord) (sel : FilterSelection) :
    filteredData data sel = data.filter (specMatch sel)
    ∧ (filteredData data sel).Sublist data := by
  constructor
  · apply List.filter_congr
    intro item _
    rcases sel with ⟨y, m⟩
    cases y with
    | none =>
        cases m with
        | none => rfl
        | some s =>
            by_cases hs : s = "" <;>
              simp [selYearTruthy, selMakeTruthy, specMatch,
                makeStrictEq_some, hs]
    | some v =>
        cases v with
        | nan =>
            cases m with
            | none => rfl
            | some s =>
                by_cases hs : s = "" <;>
                  simp [selYearTruthy, selMakeTruthy, specMatch,
                    makeStrictEq_some, hs]
        | int n =>
            by_cases hn : n = 0
            · cases m with
              | none => simp [selYearTruthy, selMakeTruthy, specMatch, hn]
              | some s =>
                  by_cases hs : s = "" <;>
                    simp [selYearTruthy, selMakeTruthy, specMatch,
                      makeStrictEq_some, hn, hs]
            · cases m with
              | none =>
                  simp [selYearTruthy, selMakeTruthy, specMatch, hn]
                  cases item.modelYear <;> simp [yearStrictEq]
              | some s =>
                  by_cases hs : s = "" <;>
                    [skip; skip] <;>
                    · simp [selYearTruthy, selMakeTruthy, specMatch,
                        makeStrictEq_some, hn, hs]
                      cases item.modelYear <;>
                        simp [yearStrictEq, yearVal_num_beq]
  · exact List.filter_sublist data

/-- C10: falsy constraint values are treated as unset — a `selectedYear`
of `0` or `NaN` and a `selectedMake` of `""` each yield exactly the view
obtained with that constraint absent. -/
theorem filteredData_falsy_constraints_ignored
    (data : List VehicleRecord) (m : Option String) (y : Option NumVal) :
    filteredData data { selectedYear := some (NumVal.int 0), selectedMake := m }
      = filteredData data { selectedYear := none, selectedMake := m }
    ∧ filteredData data { selectedYear := some NumVal.nan, selectedMake := m }
      = filteredData data { selectedYear := none, selectedMake := m }
    ∧ filteredData data { selectedYear := y, selectedMake := some "" }
      = filteredData data { selectedYear := y, selectedMake := none } := by
  refine ⟨rfl, rfl, ?_⟩
  rfl

end FilterTheorems

/-! ## Summary statistics (lines 104–108) -/

/-- A JavaScript number as produced by the average computation. -/
inductive JSNum where
  | num (q : Rat)
  | nan
  | inf
  | ninf
  deriving DecidableEq

/-- JavaScript division of a finite integer by a list length:
`0 / 0 = NaN`, `s / 0 = ±Infinity` for `s ≠ 0`, ordinary rational
division otherwise. -/
def jsDiv (s : Int) (n : Nat) : JSNum :=
  if n = 0 then
    if s = 0 then JSNum.nan else if 0 < s then JSNum.inf else JSNum.ninf
  else JSNum.num ((s : Rat) / (n : Rat))

/-- `item["Electric Range"] || 0`: a nonzero number is truthy and kept;
`0`, `null`, `undefined` and `NaN` are falsy and replaced by the
literal `0` (for a present `0` the result coincides with the value). -/
def rangeOrZero : RangeVal → Int
  | RangeVal.num n => n
  | RangeVal.nullv => 0
  | RangeVal.undef => 0
  | RangeVal.nan => 0

/-- Line 107: `filteredData.reduce((sum, item) => sum + (item["Electric
Range"] || 0), 0)`. -/
def sumRange (view : List VehicleRecord) : Int :=
  view.foldl (fun sum item => sum + rangeOrZero item.electricRange) 0

/-- Lines 106–108: `averageRange = filteredData.reduce(...) /
totalVehicles`. -/
def averageRange (view : List VehicleRecord) : JSNum :=
  jsDiv (sumRange view) view.length

/-- The sum the spec describes: `electricRange` summed over exactly the
records where the field is a valid, present number. -/
def validRangeSum (view : List VehicleRecord) : Int :=
  (view.filterMap fun item =>
    match item.electricRange with
    | RangeVal.num n => some n
    | _ => none).sum

/-- The reduce of line 107 started from `s` adds the valid-range sum. -/
theorem sumRange_foldl (view : List VehicleRecord) (s : Int) :
    view.foldl (fun sum item => sum + rangeOrZero item.electricRange) s
      = s + validRangeSum view := by
  induction view generalizing s with
  | nil => simp [validRangeSum]
  | cons r l ih =>
      rw [List.foldl_cons, ih]
      cases h : r.electricRange <;>
        simp [validRangeSum, List.filterMap_cons, h, rangeOrZero]
      ring

/-- C2: `averageRange` is the sum of `electricRange` over the records
where that field is a valid, present number, divided by `totalCount`
(the length of the whole filtered view); on an empty view the division
is `0 / 0 = NaN`, and `NaN` arises in no other case — in particular the
empty-view average is never coerced to zero. -/
theorem averageRange_valid_sum_div_total (view : List VehicleRecord) :
    averageRange view
      = (if view.length = 0 then JSNum.nan
          else JSNum.num ((validRangeSum view : Rat) / (view.length : Rat)))
    ∧ (averageRange view = JSNum.nan ↔ view.length = 0) := by
  have hsum : sumRange view = validRangeSum view := by
    simpa using sumRange_foldl view 0
  constructor
  · by_cases h : view.length = 0
    · have hnil : view = [] := List.length_eq_zero.mp h
      subst hnil
      simp [averageRange, jsDiv, sumRange]
    · simp [averageRange, jsDiv, h, hsum]
  · constructor
    · intro hav
      by_contra h
      rw [averageRange, jsDiv, if_neg h] at hav
      exact JSNum.noConfusion hav
    · intro h
      have hnil : view = [] := List.length_eq_zero.mp h
      subst hnil
      simp [averageRange, jsDiv, sumRange]

/-! ## Category distributions (lines 110–135)

A JavaScript object used as an accumulating map of string keys is
modelled as an association list: the categorical keys here (vehicle
types, makes, "Unknown") are not array-index strings, so the object's
own-property order is insertion order of first occurrence, which is
exactly the association-list order maintained by `bump`. -/

/-- `acc[k] = (acc[k] ?? 0) + 1` on an object modelled as an association
list: increment in place, or append a fresh key with count `1`. -/
def bump : List (String × Nat) → String → List (String × Nat)
  | [], k => [(k, 1)]
  | (k', v) :: rest, k =>
      if k' = k then (k', v + 1) :: rest else (k', v) :: bump rest k

/-- `item["Electric Vehicle Type"] || "Unknown"` (and likewise
`item.Make || "Unknown"`): `null` and `""` are falsy and replaced. -/
def jsOrUnknown : Option String → String
  | none => "Unknown"
  | some s => if s = "" then "Unknown" else s

/-- Lines 110–117: `filteredData.reduce((acc, item) => { const type =
item["Electric Vehicle Type"] || "Unknown"; acc[type] = (acc[type] ?? 0)
+ 1; return acc; }, {})`.  `Object.entries` of the result is the
association list itself, so this is also `vehicleTypesData`. -/
def vehicleTypes (view : List VehicleRecord) : List (String × Nat) :=
  view.foldl (fun acc item => bump acc (jsOrUnknown item.vehicleType)) []

/-- Lines 123–130: the same reduction keyed by `item.Make || "Unknown"`. -/
def makeDistribution (view : List VehicleRecord) : List (String × Nat) :=
  view.foldl (fun acc item => bump acc (jsOrUnknown item.make)) []

/-- Total of the bucket counts of an association-list distribution. -/
def sumCounts (l : List (String × Nat)) : Nat :=
  (l.map Prod.snd).sum

/-- Bumping a key grows the total count by exactly one. -/
theorem sumCounts_bump (acc : List (String × Nat)) (k : String) :
    sumCounts (bump acc k) = sumCounts acc + 1 := by
  induction acc with
  | nil => rfl
  | cons p rest ih =>
      obtain ⟨k', v⟩ := p
      by_cases h : k' = k
      · simp [bump, h, sumCounts]
        omega
      · simp [bump, h, sumCounts] at ih ⊢
        omega

/-- Bumping a key leaves the key list unchanged when the key is already
present and appends it otherwise. -/
theorem keys_bump (acc : List (String × Nat)) (k : String) :
    (bump acc k).map Prod.fst
      = if k ∈ acc.map Prod.fst then acc.map Prod.fst
        else acc.map Prod.fst ++ [k] := by
  induction acc with
  | nil => simp [bump]
  | cons p rest ih =>
      obtain ⟨k', v⟩ := p
      by_cases h : k' = k
      · simp [bump, h]
      · have hne : ¬k = k' := fun hk => h hk.symm
        simp only [bump, if_neg h, List.map_cons, ih, List.mem_cons, hne,
          false_or]
        by_cases hm : k ∈ rest.map Prod.fst <;> simp [hm]

/-- The generic bucket-counting reduction: starting from any
accumulator, the total count grows by the number of records. -/
theorem sumCounts_foldl_bump (key : VehicleRecord → String)
    (view : List VehicleRecord) (acc : List (String × Nat)) :
    sumCounts (view.foldl (fun a item => bump a (key item)) acc)
      = sumCounts acc + view.length := by
  induction view generalizing acc with
  | nil => simp
  | cons r l ih =>
      rw [List.foldl_cons, ih, sumCounts_bump]
      simp only [List.length_cons]
      omega

/-- The generic bucket-counting reduction keeps the key list free of
duplicates. -/
theorem nodup_keys_foldl_bump (key : VehicleRecord → String)
    (view : List VehicleRecord) (acc : List (String × Nat))
    (hacc : (acc.map Prod.fst).Nodup) :
    ((view.foldl (fun a item => bump a (key item)) acc).map Prod.fst).Nodup := by
  induction view generalizing acc with
  | nil => simpa
  | cons r l ih =>
      rw [List.foldl_cons]
      apply ih
      rw [keys_bump]
      split
      · exact hacc
      · next hnotmem => simp [List.nodup_append, hacc, hnotmem]

/-! ## Stable sorting

`Array.prototype.sort` with a consistent comparator produces the unique
stable order: sorted according to the comparator, with elements that
compare equal kept in their original relative order (required since
ES2019).  Insertion sort from the head, inserting each element before
the first strictly-later element, realises exactly that order. -/

/-- Insert `a` into `l`, placing it before the first element `b` with
`le a b` (so, for a reflexive `le`, before any element comparing equal
to `a`: `a` came earlier in the original array). -/
def insertSorted (le : α → α → Bool) (a : α) : List α → List α
  | [] => [a]
  | b :: l => if le a b then a :: b :: l else b :: insertSorted le a l

/-- Stable sort by the Boolean comparator-order `le`. -/
def stableSortBy (le : α → α → Bool) : List α → List α
  | [] => []
  | a :: l => insertSorted le a (stableSortBy le l)

theorem length_insertSorted (le : α → α → Bool) (a : α) (l : List α) :
    (insertSorted le a l).length = l.length + 1 := by
  induction l with
  | nil => rfl
  | cons b l ih =>
      rw [insertSorted]
      split
      · rfl
      · simp [ih]

theorem length_stableSortBy (le : α → α → Bool) (l : List α) :
    (stableSortBy le l).length = l.length := by
  induction l with
  | nil => rfl
  | cons a l ih => rw [stableSortBy, length_insertSorted, ih, List.length_cons]

theorem mem_insertSorted (le : α → α → Bool) (a x : α) (l : List α) :
    x ∈ insertSorted le a l ↔ x = a ∨ x ∈ l := by
  induction l with
  | nil => simp [insertSorted]
  | cons b l ih =>
      rw [insertSorted]
      split
      · simp
      · simp only [List.mem_cons, ih]
        tauto

theorem pairwise_insertSorted (le : α → α → Bool)
    (htot : ∀ x y, le x y = false → le y x = true)
    (htrans : ∀ x y z, le x y = true → le y z = true → le x z = true)
    (a : α) (l : List α) (hl : l.Pairwise fun x y => le x y = true) :
    (insertSorted le a l).Pairwise fun x y => le x y = true := by
  induction l with
  | nil => simp [insertSorted]
  | cons b l ih =>
      rw [insertSorted]
      rcases List.pairwise_cons.mp hl with ⟨hb, hl'⟩
      split
      · next hab =>
          refine List.pairwise_cons.mpr ⟨?_, hl⟩
          intro x hx
          rcases List.mem_cons.mp hx with hx | hx
          · exact hx ▸ hab
          · exact htrans a b x hab (hb x hx)
      · next hab =>
          refine List.pairwise_cons.mpr ⟨?_, ih hl'⟩
          intro x hx
          rcases (mem_insertSorted le a x l).mp hx with hx | hx
          · exact hx ▸ htot a b (Bool.eq_false_iff.mpr hab)
          · exact hb x hx

theorem pairwise_stableSortBy (le : α → α → Bool)
    (htot : ∀ x y, le x y = false → le y x = true)
    (htrans : ∀ x y z, le x y = true → le y z = true → le x z = true)
    (l : List α) :
    (stableSortBy le l).Pairwise fun x y => le x y = true := by
  induction l with
  | nil => simp [stableSortBy]
  | cons a l ih =>
      exact pairwise_insertSorted le htot htrans a (stableSortBy le l) ih

/-- Stability, phrased through filters: inserting `a` rearranges nothing
among the elements a predicate `p` selects, provided `p` never selects
across a strict comparator gap (`p a` and `¬ le a b` force `¬ p b`). -/
theorem filter_insertSorted (le : α → α → Bool) (p : α → Bool)
    (hp : ∀ x y, p x = true → le x y = false → p y = false)
    (a : α) (l : List α) :
    (insertSorted le a l).filter p = (a :: l).filter p := by
  induction l with
  | nil => rfl
  | cons b l ih =>
      rw [insertSorted]
      split
      · rfl
      · next hab =>
          have hab' : le a b = false := Bool.eq_false_iff.mpr hab
          by_cases hpa : p a = true
          · have hpb : p b = false := hp a b hpa hab'
            simp [List.filter_cons, hpa, hpb, ih]
          · have hpa' : p a = false := Bool.eq_false_iff.mpr hpa
            simp [List.filter_cons, hpa', ih]

/-- Stability of the full sort, phrased through filters. -/
theorem filter_stableSortBy (le : α → α → Bool) (p : α → Bool)
    (hp : ∀ x y, p x = true → le x y = false → p y = false)
    (l : List α) :
    (stableSortBy le l).filter p = l.filter p := by
  induction l with
  | nil => rfl
  | cons a l ih =>
      rw [stableSortBy, filter_insertSorted le p hp, List.filter_cons,
        List.filter_cons, ih]

/-- The comparator `(a, b) => b[1] - a[1]` of line 133, as the order
"`a` sorts no later than `b`": the comparator result is `≤ 0` exactly
when `b.2 ≤ a.2`. -/
def descByCount (a b : String × Nat) : Bool :=
  b.2 ≤ a.2

/-- Lines 132–135: `Object.entries(makeDistribution).sort((a, b) =>
b[1] - a[1]).slice(0, 5)`, followed by a `.map` that repackages each
`[name, value]` pair as `{name, value}` — componentwise the identity on
the pair, so the pairs are kept as they are. -/
def makeDistributionData (view : List VehicleRecord) : List (String × Nat) :=
  (stableSortBy descByCount (makeDistribution view)).take 5

/-- First-occurrence deduplication: the distinct values of a list, in
the order each value is first encountered.  This is also the order of
`new Set(...)` and of the own properties of an object accumulated over
non-index string keys. -/
def dedupKeepFirst [DecidableEq α] (l : List α) : List α :=
  l.foldl (fun ks k => if k ∈ ks then ks else ks ++ [k]) []

/-- The keys of the generic bucket-counting reduction are the
first-occurrence deduplication of the key sequence. -/
theorem keys_foldl_bump (key : VehicleRecord → String)
    (view : List VehicleRecord) (acc : List (String × Nat)) :
    (view.foldl (fun a item => bump a (key item)) acc).map Prod.fst
      = (view.map key).foldl
          (fun ks k => if k ∈ ks then ks else ks ++ [k]) (acc.map Prod.fst) := by
  induction view generalizing acc with
  | nil => simp
  | cons r l ih =>
      rw [List.foldl_cons, ih, keys_bump, List.map_cons, List.foldl_cons]

/-- The make buckets are keyed by the distinct make values in
first-encounter order. -/
theorem makeDistribution_keys (view : List VehicleRecord) :
    (makeDistribution view).map Prod.fst
      = dedupKeepFirst (view.map fun item => jsOrUnknown item.make) := by
  rw [makeDistribution,
    keys_foldl_bump (fun item => jsOrUnknown item.make) view []]
  rfl

section TopNTheorems

/-- Two concrete records with distinct makes; their two buckets tie at
count `1`. -/
def recMakeA : VehicleRecord :=
  { modelYear := YearVal.num 2020
    make := some "AUDI"
    vehicleType := some "Battery Electric Vehicle (BEV)"
    electricRange := RangeVal.num 200 }

/-- Second record of the tie pair. -/
def recMakeB : VehicleRecord :=
  { modelYear := YearVal.num 2021
    make := some "BMW"
    vehicleType := some "Battery Electric Vehicle (BEV)"
    electricRange := RangeVal.num 150 }

/-- C4 (counterexample): on a view with two singleton buckets the top-5
output has two entries of equal count, so its count sequence is not
strictly descending. -/
theorem makeDistributionData_not_strictly_descending :
    makeDistributionData [recMakeA, recMakeB] = [("AUDI", 1), ("BMW", 1)]
    ∧ ¬ List.Pairwise (fun a b : String × Nat => b.2 < a.2)
        (makeDistributionData [recMakeA, recMakeB]) := by
  constructor
  · rfl
  · decide

/-- C4 (amended): the top-5 make distribution has length
`min 5 (number of distinct buckets)` and its counts are descending
(non-increasing; entries with equal counts tie and keep the
deterministic first-seen order, per the tie-break theorem). -/
theorem makeDistributionData_length_and_descending
    (view : List VehicleRecord) :
    (makeDistributionData view).length
      = min 5 (dedupKeepFirst (view.map fun item => jsOrUnknown item.make)).length
    ∧ (makeDistributionData view).Pairwise
        (fun a b : String × Nat => b.2 ≤ a.2) := by
  constructor
  · rw [makeDistributionData, List.length_take, length_stableSortBy,
      ← makeDistribution_keys, List.length_map]
  · have hs := pairwise_stableSortBy descByCount
      (by intro x y h; simp [descByCount] at h ⊢; omega)
      (by intro x y z hxy hyz; simp [descByCount] at hxy hyz ⊢; omega)
      (makeDistribution view)
    have ht := List.Pairwise.sublist
      (List.take_sublist 5 (stableSortBy descByCount (makeDistribution view)))
      hs
    exact ht.imp fun h => by simpa [descByCount] using h

/-- C9: the tie-break the code realises is first-seen order — for any
count `c`, the top-5 entries of count `c` are a sublist of the bucket
list's entries of count `c` (the stable sort never reorders ties and
truncation only drops a suffix), and the bucket list's keys are exactly
the distinct make values in the order first encountered in the filtered
view. -/
theorem makeDistribution_tie_order_first_seen
    (view : List VehicleRecord) (c : Nat) :
    ((makeDistributionData view).filter fun e => e.2 == c).Sublist
        ((makeDistribution view).filter fun e => e.2 == c)
    ∧ (makeDistribution view).map Prod.fst
        = dedupKeepFirst (view.map fun item => jsOrUnknown item.make) := by
  constructor
  · have hstable := filter_stableSortBy descByCount (fun e => e.2 == c)
      (by
        intro x y hx hxy
        simp [descByCount] at hxy
        simp at hx
        simp [hx]
        omega)
      (makeDistribution view)
    rw [makeDistributionData, ← hstable]
    exact List.Sublist.filter _
      (List.take_sublist 5 (stableSortBy descByCount (makeDistribution view)))
  · exact makeDistribution_keys view

end TopNTheorems

/-! ## Yearly averages (lines 137–158) -/

/-- `isNaN(item["Model Year"])`: coercing `isNaN`, so `null` passes the
check (`Number(null) = 0`), while `undefined` and a string that
`dynamicTyping` left unconverted (hence not decimal-numeric) are `NaN`
under coercion. -/
def yearIsNaN : YearVal → Bool
  | YearVal.num _ => false
  | YearVal.nullv => false
  | YearVal.undef => true
  | YearVal.str _ => true

/-- `isNaN(item["Electric Range"])` under the same coercion. -/
def rangeIsNaN : RangeVal → Bool
  | RangeVal.num _ => false
  | RangeVal.nullv => false
  | RangeVal.undef => true
  | RangeVal.nan => true

/-- The number added by `acc[year].averageRange += range`: a finite
number adds itself and `null` adds `0` (`x += null` is `x + 0`); the
`undefined`/`NaN` cases never reach this point because the `isNaN`
guard filters them out. -/
def rangeToNumber : RangeVal → Int
  | RangeVal.num n => n
  | RangeVal.nullv => 0
  | RangeVal.undef => 0
  | RangeVal.nan => 0

/-- Lines 142–146 for one record: create the year's entry on first
sight (`{year, averageRange: 0, count: 0}`) and accumulate
`averageRange += range; count += 1`; an existing entry object is always
truthy, so `!acc[year]` creates at most once per key. -/
def bumpYear : List (YearVal × Int × Nat) → YearVal → Int →
    List (YearVal × Int × Nat)
  | [], y, rg => [(y, rg, 1)]
  | (y', s, c) :: rest, y, rg =>
      if y' = y then (y', s + rg, c + 1) :: rest
      else (y', s, c) :: bumpYear rest y rg

/-- Lines 137–151: the per-year `(sum, count)` accumulation, guarded by
`if (!isNaN(year) && !isNaN(range))`.  Entries are stored in key
insertion order; `objValuesOrder` below reproduces the traversal order
of the object's keys. -/
def rangeByYear (view : List VehicleRecord) : List (YearVal × Int × Nat) :=
  view.foldl
    (fun acc item =>
      if !yearIsNaN item.modelYear && !rangeIsNaN item.electricRange then
        bumpYear acc item.modelYear (rangeToNumber item.electricRange)
      else acc)
    []

/-- Whether a year value becomes an array-index property key
(a canonical integer string in `[0, 2^32 - 1)`); such keys are
enumerated first, in ascending numeric order. -/
def isArrayIndexKey : YearVal → Bool
  | YearVal.num n => 0 ≤ n && n < 4294967295
  | _ => false

/-- Ascending order on the numeric value of an array-index key (the
non-index keys never reach this comparator). -/
def ascIndexKey (a b : YearVal × Int × Nat) : Bool :=
  (match a.1 with | YearVal.num n => n | _ => 0)
    ≤ (match b.1 with | YearVal.num n => n | _ => 0)

/-- `Object.values` of the accumulated object: array-index keys first in
ascending numeric order, then the remaining keys in insertion order. -/
def objValuesOrder (l : List (YearVal × Int × Nat)) :
    List (YearVal × Int × Nat) :=
  stableSortBy ascIndexKey (l.filter fun e => isArrayIndexKey e.1)
    ++ l.filter fun e => !isArrayIndexKey e.1

/-- Sort key of line 158's comparator `(a, b) => a.year - b.year`:
`null` coerces to `0`; `undefined` and string years cannot occur among
the keys (the `isNaN` guard removed them). -/
def yearSortKey : YearVal → Int
  | YearVal.num n => n
  | YearVal.nullv => 0
  | YearVal.undef => 0
  | YearVal.str _ => 0

/-- The comparator of line 158 as an order on the mapped entries. -/
def ascByYear (a b : YearVal × Rat) : Bool :=
  yearSortKey a.1 ≤ yearSortKey b.1

/-- Lines 153–158: `Object.values(rangeByYear).map(({year, averageRange,
count}) => ({year, averageRange: averageRange / count})).sort((a, b) =>
a.year - b.year)`. -/
def rangeByYearData (view : List VehicleRecord) : List (YearVal × Rat) :=
  stableSortBy ascByYear
    ((objValuesOrder (rangeByYear view)).map
      fun e => (e.1, (e.2.1 : Rat) / (e.2.2 : Rat)))

/-- A record whose `Model Year` cell is empty: `dynamicTyping` parses it
to `null`, and `isNaN(null)` is `false`. -/
def recNullYear : VehicleRecord :=
  { modelYear := YearVal.nullv
    make := some "TESLA"
    vehicleType := some "Battery Electric Vehicle (BEV)"
    electricRange := RangeVal.num 100 }

/-- C3 (code bug): a record with an absent (`null`) model year and a
valid electric range is *not* excluded from the yearly-average
aggregation — `isNaN(null)` is `false`, so the code emits an entry
keyed by the `null` year, where the spec requires the record to be
excluded entirely (the output should be empty for this view). -/
theorem rangeByYearData_null_year_included :
    rangeByYearData [recNullYear] = [(YearVal.nullv, 100)]
    ∧ rangeByYearData [recNullYear] ≠ [] := by
  have h1 : rangeByYearData [recNullYear]
      = [(YearVal.nullv, ((100 : Int) : Rat) / ((1 : Nat) : Rat))] := by
    rfl
  have h2 : ((100 : Int) : Rat) / ((1 : Nat) : Rat) = (100 : Rat) := by
    norm_num
  rw [h1, h2]
  exact ⟨rfl, by simp⟩

/-! ## Pagination (lines 66, 160–163, 348–368) -/

/-- `const ITEMS_PER_PAGE = 10`. -/
def ITEMS_PER_PAGE : Int := 10

/-- Index resolution of `Array.prototype.slice`: a negative index counts
from the end and is clamped to `0`, a non-negative one is clamped to the
length. -/
def jsSliceIdx (L : Nat) (i : Int) : Int :=
  if i < 0 then max ((L : Int) + i) 0 else min i (L : Int)

/-- `Array.prototype.slice(a, b)`: the elements from the resolved start
index (inclusive) to the resolved end index (exclusive). -/
def jsSlice (l : List α) (a b : Int) : List α :=
  (l.drop (jsSliceIdx l.length a).toNat).take
    (jsSliceIdx l.length b - jsSliceIdx l.length a).toNat

/-- Lines 160–163: `filteredData.slice((currentPage - 1) * ITEMS_PER_PAGE,
currentPage * ITEMS_PER_PAGE)`. -/
def paginatedData (view : List VehicleRecord) (currentPage : Int) :
    List VehicleRecord :=
  jsSlice view ((currentPage - 1) * ITEMS_PER_PAGE)
    (currentPage * ITEMS_PER_PAGE)

/-- `Math.ceil(totalVehicles / ITEMS_PER_PAGE)` for a natural count. -/
def totalPages (totalVehicles : Nat) : Int :=
  ((totalVehicles + 9) / 10 : Nat)

/-- Line 350: the Previous button's update
`setCurrentPage((prev) => Math.max(prev - 1, 1))`. -/
def prevClick (page : Int) : Int :=
  max (page - 1) 1

/-- Lines 357–361: the Next button's update
`setCurrentPage((prev) => Math.min(prev + 1, Math.ceil(totalVehicles /
ITEMS_PER_PAGE)))`. -/
def nextClick (totalVehicles : Nat) (page : Int) : Int :=
  min (page + 1) (totalPages totalVehicles)

/-- Lines 362–364: the Next button is disabled iff `currentPage ===
Math.ceil(totalVehicles / ITEMS_PER_PAGE)`. -/
def nextDisabled (totalVehicles : Nat) (page : Int) : Bool :=
  page == totalPages totalVehicles

/-- Line 351: the Previous button is disabled iff `currentPage === 1`. -/
def prevDisabled (page : Int) : Bool :=
  page == 1

/-! ## Facet index (lines 105, 165–168) and the assembled view

`new Set(xs)` keeps insertion order and collapses repeats to the first
occurrence; `Array.from` of it is first-occurrence deduplication. -/

/-- Lines 165–167: `Array.from(new Set(data.map((item) => item["Model
Year"])))`, over the full unfiltered store. -/
def uniqueYears (data : List VehicleRecord) : List YearVal :=
  dedupKeepFirst (data.map fun item => item.modelYear)

/-- Line 168: `Array.from(new Set(data.map((item) => item.Make)))`, over
the full unfiltered store. -/
def uniqueMakesList (data : List VehicleRecord) : List (Option String) :=
  dedupKeepFirst (data.map fun item => item.make)

/-- Line 105: `new Set(filteredData.map((item) => item.Make)).size`. -/
def uniqueMakes (view : List VehicleRecord) : Nat :=
  (dedupKeepFirst (view.map fun item => item.make)).length

/-- All values the component derives from `(data, selectedYear,
selectedMake, currentPage)` during a render. -/
structure DashboardView where
  filteredData : List VehicleRecord
  totalVehicles : Nat
  uniqueMakes : Nat
  averageRange : JSNum
  vehicleTypesData : List (String × Nat)
  makeDistributionData : List (String × Nat)
  rangeByYearData : List (YearVal × Rat)
  paginatedData : List VehicleRecord
  uniqueYears : List YearVal
  uniqueMakesList : List (Option String)

/-- The whole derived state of one render of the `Dashboard` component
(lines 97–168), assembled from the definitions above. -/
def dashboard (data : List VehicleRecord) (sel : FilterSelection)
    (currentPage : Int) : DashboardView :=
  { filteredData := filteredData data sel
    totalVehicles := (filteredData data sel).length
    uniqueMakes := uniqueMakes (filteredData data sel)
    averageRange := averageRange (filteredData data sel)
    vehicleTypesData := vehicleTypes (filteredData data sel)
    makeDistributionData := makeDistributionData (filteredData data sel)
    rangeByYearData := rangeByYearData (filteredData data sel)
    paginatedData := paginatedData (filteredData data sel) currentPage
    uniqueYears := uniqueYears data
    uniqueMakesList := uniqueMakesList data }

/-- C6: the vehicle-type distribution is a partition of the filtered
view — each record lands in exactly one bucket (absent or empty type
values land in the literal "Unknown" bucket), the buckets are pairwise
distinct, and the bucket counts add up to the view's length. -/
theorem vehicleTypes_partition_counts (view : List VehicleRecord) :
    sumCounts (vehicleTypes view) = view.length
    ∧ ((vehicleTypes view).map Prod.fst).Nodup := by
  refine ⟨?_, ?_⟩
  · have h :=
      sumCounts_foldl_bump (fun item => jsOrUnknown item.vehicleType) view []
    simpa [vehicleTypes, sumCounts] using h
  · exact nodup_keys_foldl_bump (fun item => jsOrUnknown item.vehicleType)
      view [] (by simp)

/-! ## Pagination theorems -/

/-- A slice whose bounds are exactly ten apart yields at most ten
elements, whatever the bounds' signs. -/
theorem length_jsSlice_le {α : Type} (l : List α) (a b : Int)
    (h : b = a + 10) : (jsSlice l a b).length ≤ 10 := by
  have hlen : (jsSlice l a b).length
      ≤ (jsSliceIdx l.length b - jsSliceIdx l.length a).toNat := by
    rw [jsSlice, List.length_take]
    exact Nat.min_le_left _ _
  refine le_trans hlen ?_
  simp only [jsSliceIdx, Int.max_def, Int.min_def]
  split_ifs <;> omega

/-- For non-negative, ordered bounds a slice is the drop/take range
selection. -/
theorem jsSlice_nonneg {α : Type} (l : List α) (a b : Int)
    (ha : 0 ≤ a) (hab : a ≤ b) :
    jsSlice l a b = (l.drop a.toNat).take (b - a).toNat := by
  rw [jsSlice]
  simp only [jsSliceIdx, if_neg (by omega : ¬a < 0), if_neg (by omega : ¬b < 0)]
  rcases le_or_lt a (l.length : Int) with hal | hal
  · rw [min_eq_left hal]
    rcases le_or_lt b (l.length : Int) with hbl | hbl
    · rw [min_eq_left hbl]
    · rw [min_eq_right (le_of_lt hbl)]
      have hlen : (l.drop a.toNat).length = l.length - a.toNat :=
        List.length_drop _ _
      have h1 : (l.drop a.toNat).length ≤ ((l.length : Int) - a).toNat := by
        rw [hlen]; omega
      have h2 : (l.drop a.toNat).length ≤ (b - a).toNat := by
        rw [hlen]; omega
      rw [List.take_of_length_le h1, List.take_of_length_le h2]
  · rw [min_eq_right (le_of_lt hal), min_eq_right (by omega : (l.length : Int) ≤ b)]
    have hd1 : l.drop (l.length : Int).toNat = [] :=
      List.drop_eq_nil_of_le (by omega)
    have hd2 : l.drop a.toNat = [] :=
      List.drop_eq_nil_of_le (by omega)
    rw [hd1, hd2, List.take_nil, List.take_nil]

/-- C7: for any page number the page holds at most `ITEMS_PER_PAGE = 10`
records, and for a 1-based page number the page is exactly the records
at 1-based positions `(p-1)*10 + 1` through `min(p*10, totalCount)` of
the view, i.e. drop the first `(p-1)*10` records and take the next ten. -/
theorem paginatedData_range_selection (view : List VehicleRecord) (p : Int) :
    (paginatedData view p).length ≤ 10
    ∧ (1 ≤ p →
        paginatedData view p = (view.drop ((p - 1) * 10).toNat).take 10) := by
  constructor
  · rw [paginatedData]
    exact length_jsSlice_le view _ _ (by rw [ITEMS_PER_PAGE]; ring)
  · intro hp
    rw [paginatedData, ITEMS_PER_PAGE,
      jsSlice_nonneg view _ _ (by omega) (by omega)]
    have h10 : (p * 10 - (p - 1) * 10).toNat = 10 := by omega
    rw [h10]

/-- A synthetic record used to build concrete stores: year and range
`i`, fixed make and type. -/
def mkRec (i : Nat) : VehicleRecord :=
  { modelYear := YearVal.num i
    make := some "TESLA"
    vehicleType := some "Battery Electric Vehicle (BEV)"
    electricRange := RangeVal.num i }

/-- A store of 23 distinct records, the spec's worked pagination
example. -/
def view23 : List VehicleRecord :=
  (List.range 23).map mkRec

/-- C7 (witness): on the 23-record view, page 3 is the records at
positions 21–23 and page 1 is the first ten records. -/
theorem paginatedData_range_selection_witness :
    (1 : Int) ≤ 3
    ∧ paginatedData view23 3 = [mkRec 20, mkRec 21, mkRec 22]
    ∧ paginatedData view23 1 = view23.take 10 := by
  refine ⟨by norm_num, ?_, ?_⟩
  · rw [(paginatedData_range_selection view23 3).2 (by norm_num)]
    rfl
  · rw [(paginatedData_range_selection view23 1).2 (by norm_num)]
    rfl

/-- C5 (code bug): on an empty filtered view (`totalCount = 0`) starting
from the initial page 1, the Next control is *enabled* (`1 !==
Math.ceil(0/10) = 0`) and clicking it sets `currentPage` to
`Math.min(2, 0) = 0`, so the caller does not keep the page number in
`[1, ...]` and does not treat the empty view as a single page 1. -/
theorem nextClick_empty_view_yields_page_zero :
    (dashboard [] { selectedYear := none, selectedMake := none } 1).totalVehicles
      = 0
    ∧ nextDisabled
        (dashboard [] { selectedYear := none, selectedMake := none } 1).totalVehicles
        1 = false
    ∧ nextClick
        (dashboard [] { selectedYear := none, selectedMake := none } 1).totalVehicles
        1 = 0
    ∧ ¬ (1 : Int) ≤ 0 := by
  exact ⟨rfl, rfl, rfl, by omega⟩

/-- C8: the facet lists are computed from the full, unfiltered store:
they are identical for any two filter selections (and page numbers), and
each equals the first-occurrence deduplication of the corresponding
column of the whole store. -/
theorem uniqueFacets_independent_of_selection
    (data : List VehicleRecord) (sel sel' : FilterSelection) (p p' : Int) :
    (dashboard data sel p).uniqueYears = (dashboard data sel' p').uniqueYears
    ∧ (dashboard data sel p).uniqueMakesList
        = (dashboard data sel' p').uniqueMakesList
    ∧ (dashboard data sel p).uniqueYears
        = dedupKeepFirst (data.map fun item => item.modelYear)
    ∧ (dashboard data sel p).uniqueMakesList
        = dedupKeepFirst (data.map fun item => item.make) :=
  ⟨rfl, rfl, rfl, rfl⟩
